import Mathlib

/-!
Shallow embedding of the two scripts of SkanderMulder/extractoR:
`src/create_issues.py` (catalog + submission runner, guarded by the
GITHUB_TOKEN environment variable) and `src/create_issues_direct.py`
(token auto-discovery via the `gh` CLI, an authentication pre-check,
then re-execution of the first script's source).

HTTP traffic is abstracted by an oracle `Nat → Attempt` giving, for the
i-th POST of a run, either the server's response or the transport
exception the call raised.  Wall-clock effects (`time.sleep`) and HTTP
calls are recorded as an event trace; `print` output is recorded as a
list of lines.
-/

namespace ExtractoR

/-- One element of the `issues` literal of create_issues.py:
a dict with keys title, body, labels, milestone. -/
structure Issue where
  title : String
  body : String
  labels : List String
  milestone : Option Nat
deriving DecidableEq

/-- What `requests.post` returned: the fields of the response the script
reads (`status_code`, the json's `number` and `title`, and `text`). -/
structure Response where
  status : Nat
  number : Nat
  title : String
  text : String
deriving DecidableEq

/-- Outcome of one `requests.post` call: a response, or a raised
transport-level exception (connection failure, timeout, malformed
response) carrying `str(e)`. -/
inductive Attempt where
  | response (r : Response)
  | exn (msg : String)
deriving DecidableEq

/-- Outcome of the `subprocess.run(["gh", "auth", "token"], timeout=5)`
call of create_issues_direct.py: the executable was absent
(FileNotFoundError), the timeout expired (TimeoutExpired), or the
process exited with a return code and captured stdout. -/
inductive HelperResult where
  | fileNotFound
  | timedOut
  | exited (returncode : Int) (stdout : String)
deriving DecidableEq

/-- Observable side effects of a run: the read-only authentication GET,
the i-th submission POST (1-based, as in `enumerate(issues, 1)`), and
`time.sleep(secs)`. -/
inductive Event where
  | getRepo
  | post (idx : Nat)
  | sleep (secs : Nat)
deriving DecidableEq

/-- Python truthiness of `os.environ.get(...)` / of the resolved token:
`None` and the empty string are falsy. -/
def pyTruthy : Option String → Bool
  | none => false
  | some s => !s.isEmpty

/-- Python's `str.strip()` with no argument: drop leading and trailing
whitespace. -/
def pyStrip (s : String) : String :=
  String.mk (((s.data.dropWhile Char.isWhitespace).reverse.dropWhile Char.isWhitespace).reverse)

/-- create_issues_direct.py, `get_github_token` (lines 14-33): return the
GITHUB_TOKEN environment value if truthy; otherwise run `gh auth token`
with a 5 second timeout and return its stripped stdout when it exited
with code 0; FileNotFoundError and TimeoutExpired are swallowed and, as
for a nonzero exit code, `None` is returned. -/
def get_github_token (env : Option String) (gh : HelperResult) : Option String :=
  if pyTruthy env then env
  else
    match gh with
    | .exited returncode stdout =>
        if returncode = 0 then some (pyStrip stdout) else none
    | .fileNotFound => none
    | .timedOut => none

/-- create_issues.py, `create_issue` (lines 1415-1436): POST the record;
status 201 prints the created line (number and title taken from the
response json) and returns True; any other status prints the failure
lines (status code, response text) and returns False; any exception is
caught, printed, and False is returned.  First component: the returned
Bool; second: the printed lines. -/
def create_issue (issue_data : Issue) (a : Attempt) : Bool × List String :=
  match a with
  | .response response =>
      if response.status = 201 then
        (true, ["✓ Created issue #" ++ toString response.number ++ ": " ++ response.title])
      else
        (false,
          ["✗ Failed to create issue: " ++ issue_data.title,
           "  Status: " ++ toString response.status,
           "  Response: " ++ response.text])
  | .exn e =>
      (false,
        ["✗ Error creating issue: " ++ issue_data.title,
         "  Error: " ++ e])

/-- Whether a submission attempt yields True from `create_issue`:
a response with status 201, and never an exception. -/
def attemptOk : Attempt → Bool
  | .response r => r.status = 201
  | .exn _ => false

/-- The submission index an event carries, if it is a POST. -/
def postIdx : Event → Option Nat
  | .post i => some i
  | _ => none

/-- The running tally of `main`: `created`, `failed`, and `len(issues)`. -/
structure RunSummary where
  created : Nat
  failed : Nat
  total : Nat
deriving DecidableEq

/-- Accumulated output of the `for i, issue in enumerate(issues, 1)` loop. -/
structure LoopOut where
  created : Nat
  failed : Nat
  events : List Event
  logs : List String
deriving DecidableEq

/-- The loop body of `main` (lines 1446-1455): print the `[i/N] ` prefix,
call `create_issue` (one POST; its first printed line continues the
prefix line), bump `created` or `failed`, and `time.sleep(1)` when
`i < len(issues)`. -/
def mainLoop (oracle : Nat → Attempt) (total : Nat) : List Issue → Nat → LoopOut
  | [], _ => ⟨0, 0, [], []⟩
  | issue :: rest, i =>
      let res := create_issue issue (oracle i)
      let recLogs :=
        match res.2 with
        | [] => []
        | l :: ls => ("[" ++ toString i ++ "/" ++ toString total ++ "] " ++ l) :: ls
      let r := mainLoop oracle total rest (i + 1)
      ⟨(if res.1 then r.created + 1 else r.created),
       (if res.1 then r.failed else r.failed + 1),
       Event.post i :: ((if i < total then [Event.sleep 1] else []) ++ r.events),
       recLogs ++ r.logs⟩

/-- What one call of `main` produces: the final tally, the process exit
status it forces (`sys.exit(1)` when `failed > 0`, else fall through to
exit 0), the event trace and the printed lines. -/
structure MainOut where
  summary : RunSummary
  exitCode : Nat
  events : List Event
  logs : List String
deriving DecidableEq

/-- Python's `"=" * n`, as printed for the separator rules. -/
def sepRule (n : Nat) : String :=
  String.mk (List.replicate n '=')

/-- The summary block printed after the loop (lines 1457-1463). -/
def summaryLines (created failed total : Nat) : List String :=
  ["",
   sepRule 60,
   "Summary:",
   "  Created: " ++ toString created,
   "  Failed: " ++ toString failed,
   "  Total: " ++ toString total,
   sepRule 60]

/-- create_issues.py, `main` (lines 1438-1466). -/
def runMain (oracle : Nat → Attempt) (issues : List Issue) : MainOut :=
  let r := mainLoop oracle issues.length issues 1
  { summary := ⟨r.created, r.failed, issues.length⟩,
    exitCode := if r.failed > 0 then 1 else 0,
    events := r.events,
    logs := ("Creating " ++ toString issues.length ++ " issues for SkanderMulder/extractoR...")
             :: "" :: (r.logs ++ summaryLines r.created r.failed issues.length) }

/-- What the module-level GITHUB_TOKEN guard of create_issues.py prints
before `sys.exit(1)` (lines 19-22). -/
def script1GuardLogs : List String :=
  ["Error: GITHUB_TOKEN environment variable not set",
   "Please set it with: export GITHUB_TOKEN='your_token_here'"]

/-- A whole run of create_issues.py as `__main__`: the module-level guard
aborts with exit 1 before any HTTP call when GITHUB_TOKEN is unset or
empty; otherwise `main()` runs. -/
inductive Script1Result where
  | tokenMissing (exitCode : Nat) (events : List Event) (logs : List String)
  | ran (out : MainOut)
deriving DecidableEq

/-- create_issues.py executed as a script (module guard, then `main()`). -/
def runScript1 (env : Option String) (oracle : Nat → Attempt) (issues : List Issue) :
    Script1Result :=
  if pyTruthy env then .ran (runMain oracle issues)
  else .tokenMissing 1 [] script1GuardLogs

/-- The remediation block create_issues_direct.py prints when no
credential was resolved (lines 50-62), before `sys.exit(1)`. -/
def remediationLines : List String :=
  [sepRule 70,
   "GITHUB TOKEN REQUIRED",
   sepRule 70,
   "",
   "I need a GitHub personal access token to create issues.",
   "",
   "Please:",
   "1. Go to: https://github.com/settings/tokens/new",
   "2. Create a token with 'repo' scope",
   "3. Run: export GITHUB_TOKEN='your_token_here'",
   "4. Run this script again",
   ""]

/-- Observables of a run of create_issues_direct.py. -/
structure DirectOutcome where
  exitCode : Nat
  events : List Event
  logs : List String
deriving DecidableEq

/-- create_issues_direct.py, top to bottom.  `oracle` answers the POSTs
of the first `main()` call and `oracle2` those of the second.
Control flow of the source: resolve the token (`get_github_token`);
falsy token prints the remediation block and exits 1 (lines 48-63); then
the authentication pre-check GETs the repo and any status other than 200
prints the status and raw body and exits 1 (lines 70-77); then
`exec(open('create_issues.py').read())` re-runs the first script's
module code, whose own guard re-reads GITHUB_TOKEN from the environment
and exits 1 when it is unset or empty; when the guard passes, the exec'd
trailing `if __name__ == "__main__"` block is true (exec shares the
caller's globals, where `__name__` is "__main__"), so `main()` already
runs inside the exec; finally line 84 calls `main()` once more. -/
def runDirect (env : Option String) (gh : HelperResult)
    (authStatus : Nat) (authText : String)
    (oracle oracle2 : Nat → Attempt) (issues : List Issue) : DirectOutcome :=
  let token := get_github_token env gh
  if pyTruthy token = false then
    { exitCode := 1, events := [], logs := remediationLines }
  else if authStatus ≠ 200 then
    { exitCode := 1, events := [Event.getRepo],
      logs := ["Testing GitHub authentication...",
               "✗ Authentication failed: " ++ toString authStatus,
               "Response: " ++ authText] }
  else if pyTruthy env = false then
    { exitCode := 1, events := [Event.getRepo],
      logs := ["Testing GitHub authentication...",
               "✓ Authentication successful!", ""] ++ script1GuardLogs }
  else
    let r1 := runMain oracle issues
    if 0 < r1.summary.failed then
      { exitCode := 1, events := Event.getRepo :: r1.events,
        logs := ["Testing GitHub authentication...",
                 "✓ Authentication successful!", ""] ++ r1.logs }
    else
      let r2 := runMain oracle2 issues
      { exitCode := r2.exitCode,
        events := Event.getRepo :: (r1.events ++ r2.events),
        logs := ["Testing GitHub authentication...",
                 "✓ Authentication successful!", ""] ++ r1.logs ++ r2.logs }

/-- A concrete record, for evaluating the model on closed inputs. -/
def sampleIssue : Issue :=
  { title := "Run full CRAN checks and fix all NOTEs/WARNINGs",
    body := "Run comprehensive CRAN checks.",
    labels := ["cran", "priority-high", "phase-1"],
    milestone := none }

/-- An oracle on which every POST succeeds with status 201. -/
def sampleOracle : Nat → Attempt :=
  fun i => .response { status := 201, number := i, title := sampleIssue.title, text := "" }

/-- An oracle on which every POST is rejected with status 422. -/
def rejectOracle : Nat → Attempt :=
  fun _ => .response { status := 422, number := 0, title := "", text := "Validation Failed" }

/-! ### Lemmas about the submission loop -/

lemma create_issue_fst (issue : Issue) (a : Attempt) :
    (create_issue issue a).1 = attemptOk a := by
  cases a with
  | response r => by_cases h : r.status = 201 <;> simp [create_issue, attemptOk, h]
  | exn e => rfl

lemma mainLoop_created_count (oracle : Nat → Attempt) (total : Nat) :
    ∀ (rest : List Issue) (i : Nat),
      (mainLoop oracle total rest i).created
        = ((List.range' i rest.length).filter (fun j => attemptOk (oracle j))).length := by
  intro rest
  induction rest with
  | nil => intro i; rfl
  | cons issue rest ih =>
      intro i
      simp only [mainLoop, List.length_cons, List.range'_succ, List.filter_cons]
      rw [create_issue_fst]
      by_cases h : attemptOk (oracle i) <;> simp [h, ih (i + 1)]

lemma mainLoop_failed_count (oracle : Nat → Attempt) (total : Nat) :
    ∀ (rest : List Issue) (i : Nat),
      (mainLoop oracle total rest i).failed
        = ((List.range' i rest.length).filter (fun j => !attemptOk (oracle j))).length := by
  intro rest
  induction rest with
  | nil => intro i; rfl
  | cons issue rest ih =>
      intro i
      simp only [mainLoop, List.length_cons, List.range'_succ, List.filter_cons]
      rw [create_issue_fst]
      by_cases h : attemptOk (oracle i) <;> simp [h, ih (i + 1)]

lemma mainLoop_created_add_failed (oracle : Nat → Attempt) (total : Nat)
    (rest : List Issue) (i : Nat) :
    (mainLoop oracle total rest i).created + (mainLoop oracle total rest i).failed
      = rest.length := by
  induction rest generalizing i with
  | nil => rfl
  | cons issue rest ih =>
      simp only [mainLoop, List.length_cons]
      by_cases h : (create_issue issue (oracle i)).1 <;> simp [h] <;>
        rw [← ih (i + 1)] <;> omega

lemma mainLoop_posts (oracle : Nat → Attempt) (total : Nat)
    (rest : List Issue) (i : Nat) :
    (mainLoop oracle total rest i).events.filterMap postIdx
      = List.range' i rest.length := by
  induction rest generalizing i with
  | nil => rfl
  | cons issue rest ih =>
      simp only [mainLoop, List.length_cons, List.range'_succ]
      by_cases h : i < total <;>
        simp [h, List.filterMap_cons, List.filterMap_append, postIdx, ih (i + 1)]

lemma mainLoop_events_length (oracle : Nat → Attempt)
    (rest : List Issue) (i total : Nat) (h : i + rest.length = total + 1) :
    (mainLoop oracle total rest i).events.length = 2 * rest.length - 1 := by
  induction rest generalizing i with
  | nil => rfl
  | cons issue rest ih =>
      have htail := ih (i + 1) (by simp at h ⊢; omega)
      simp only [mainLoop, List.length_cons, List.length_append] at htail ⊢
      by_cases h2 : i < total <;> simp only [h2, if_true, if_false] <;>
        simp at h ⊢ <;> omega

lemma mainLoop_events_get_even (oracle : Nat → Attempt) :
    ∀ (rest : List Issue) (i total k : Nat), i + rest.length = total + 1 →
      k < rest.length →
      (mainLoop oracle total rest i).events[2 * k]? = some (Event.post (i + k)) := by
  intro rest
  induction rest with
  | nil => intro i total k _ hk; simp at hk
  | cons issue rest ih =>
      intro i total k h hk
      match k with
      | 0 => simp [mainLoop]
      | k + 1 =>
          have hrest : k < rest.length := by simp at hk; omega
          have hlt : i < total := by simp at h; omega
          have harith : 2 * (k + 1) = 2 * k + 1 + 1 := by ring
          simp only [mainLoop, hlt, if_true, List.singleton_append, harith,
            List.getElem?_cons_succ]
          rw [ih (i + 1) total k (by simp at h ⊢; omega) hrest]
          congr 2
          omega

lemma mainLoop_events_get_odd (oracle : Nat → Attempt) :
    ∀ (rest : List Issue) (i total k : Nat), i + rest.length = total + 1 →
      k + 1 < rest.length →
      (mainLoop oracle total rest i).events[2 * k + 1]? = some (Event.sleep 1) := by
  intro rest
  induction rest with
  | nil => intro i total k _ hk; simp at hk
  | cons issue rest ih =>
      intro i total k h hk
      have hlt : i < total := by simp at h hk; omega
      match k with
      | 0 => simp [mainLoop, hlt]
      | k + 1 =>
          have hrest : k + 1 < rest.length := by simp at hk; omega
          have harith : 2 * (k + 1) + 1 = 2 * k + 1 + 1 + 1 := by ring
          simp only [mainLoop, hlt, if_true, List.singleton_append, harith,
            List.getElem?_cons_succ]
          exact ih (i + 1) total k (by simp at h ⊢; omega) hrest

/-! ### Claim theorems -/

/-- C2: on every catalog of N records a completed run of `main` satisfies
Created + Failed = N and Total = N, and its trace holds exactly one
submission POST per record, indices 1..N in catalog order — no record is
retried or skipped. -/
theorem tally_partition_invariant (oracle : Nat → Attempt) (issues : List Issue) :
    (runMain oracle issues).summary.created + (runMain oracle issues).summary.failed
        = issues.length
    ∧ (runMain oracle issues).summary.total = issues.length
    ∧ (runMain oracle issues).events.filterMap postIdx = List.range' 1 issues.length :=
  ⟨mainLoop_created_add_failed oracle issues.length issues 1, rfl,
   mainLoop_posts oracle issues.length issues 1⟩

/-- C3: when every attempt returns status 201 and raises nothing, the run
gives N Created, 0 Failed and exit status 0; and in every run the exit
status is 0 exactly when the Failed count is zero (the empty catalog
included), 1 when at least one submission failed. -/
theorem all_success_run_and_exit_code (oracle : Nat → Attempt) (issues : List Issue) :
    ((∀ j, 1 ≤ j → j ≤ issues.length → attemptOk (oracle j) = true) →
      (runMain oracle issues).summary.created = issues.length
      ∧ (runMain oracle issues).summary.failed = 0
      ∧ (runMain oracle issues).exitCode = 0)
    ∧ ((runMain oracle issues).summary.failed = 0 → (runMain oracle issues).exitCode = 0)
    ∧ (0 < (runMain oracle issues).summary.failed → (runMain oracle issues).exitCode = 1) := by
  have hcf := mainLoop_created_add_failed oracle issues.length issues 1
  have hf := mainLoop_failed_count oracle issues.length issues 1
  refine ⟨?_, ?_, ?_⟩
  · intro h
    have hnil : (List.range' 1 issues.length).filter (fun j => !attemptOk (oracle j)) = [] := by
      rw [List.filter_eq_nil_iff]
      intro j hj
      have hjr := List.mem_range'_1.mp hj
      simp [h j hjr.1 (by omega)]
    have hF : (mainLoop oracle issues.length issues 1).failed = 0 := by
      rw [hf, hnil]; rfl
    have hC : (mainLoop oracle issues.length issues 1).created = issues.length := by omega
    refine ⟨hC, hF, ?_⟩
    show (if (mainLoop oracle issues.length issues 1).failed > 0 then 1 else 0) = 0
    simp [hF]
  · intro h0
    show (if (mainLoop oracle issues.length issues 1).failed > 0 then 1 else 0) = 0
    have : (mainLoop oracle issues.length issues 1).failed = 0 := h0
    simp [this]
  · intro h1
    show (if (mainLoop oracle issues.length issues 1).failed > 0 then 1 else 0) = 1
    have : 0 < (mainLoop oracle issues.length issues 1).failed := h1
    simp [this]

/-- C4: a transport exception raised inside one submission is caught in
`create_issue` (it returns False with the exception text logged, instead
of propagating), that record alone adds to Failed — the tallies count
exactly the non-201 attempts — and every record of the catalog is still
POSTed exactly once, in order, whatever the oracle raises. -/
theorem transport_exception_isolation (oracle : Nat → Attempt) (issues : List Issue)
    (issue : Issue) (e : String) :
    (create_issue issue (Attempt.exn e)).1 = false
    ∧ (create_issue issue (Attempt.exn e)).2
        = ["✗ Error creating issue: " ++ issue.title, "  Error: " ++ e]
    ∧ (runMain oracle issues).events.filterMap postIdx = List.range' 1 issues.length
    ∧ (runMain oracle issues).summary.failed
        = ((List.range' 1 issues.length).filter (fun j => !attemptOk (oracle j))).length
    ∧ (runMain oracle issues).summary.created
        = ((List.range' 1 issues.length).filter (fun j => attemptOk (oracle j))).length :=
  ⟨rfl, rfl, mainLoop_posts oracle issues.length issues 1,
   mainLoop_failed_count oracle issues.length issues 1,
   mainLoop_created_count oracle issues.length issues 1⟩

/-- C5: the trace of a run over N records is POST 1, sleep 1, POST 2,
sleep 1, ..., POST N: every even position 2k holds the (k+1)-th POST,
every odd position between two POSTs holds the fixed 1-second sleep, and
the length 2N-1 (0 for N = 0) leaves no sleep after the final POST and
none at all for an empty or singleton catalog. -/
theorem fixed_delay_between_submissions (oracle : Nat → Attempt) (issues : List Issue) :
    (∀ k, k < issues.length →
      (runMain oracle issues).events[2 * k]? = some (Event.post (1 + k)))
    ∧ (∀ k, k + 1 < issues.length →
      (runMain oracle issues).events[2 * k + 1]? = some (Event.sleep 1))
    ∧ (runMain oracle issues).events.length = 2 * issues.length - 1 := by
  refine ⟨?_, ?_, ?_⟩
  · intro k hk
    exact mainLoop_events_get_even oracle issues 1 issues.length k (by omega) hk
  · intro k hk
    exact mainLoop_events_get_odd oracle issues 1 issues.length k (by omega) hk
  · exact mainLoop_events_length oracle issues 1 issues.length (by omega)

/-- C6: an exception-free attempt is Created exactly when the response
status is 201; the success line carries the server-assigned number and
title from the response, and the failure lines carry the status code and
the raw response text. -/
theorem submission_outcome_and_logs (issue : Issue) (r : Response) :
    ((create_issue issue (Attempt.response r)).1 = true ↔ r.status = 201)
    ∧ (r.status = 201 →
        (create_issue issue (Attempt.response r)).2
          = ["✓ Created issue #" ++ toString r.number ++ ": " ++ r.title])
    ∧ (r.status ≠ 201 →
        (create_issue issue (Attempt.response r)).2
          = ["✗ Failed to create issue: " ++ issue.title,
             "  Status: " ++ toString r.status,
             "  Response: " ++ r.text]) := by
  refine ⟨?_, ?_, ?_⟩ <;> by_cases h : r.status = 201 <;> simp [create_issue, h]

/-- C7: when credential resolution yields no value, the second script
prints the remediation block and stops with exit status 1 having made no
HTTP call at all (no auth check, no submission); and the first script's
module guard likewise stops with exit 1, its own remediation lines
printed, before any HTTP call, whenever GITHUB_TOKEN is unset or empty. -/
theorem missing_credential_aborts_before_http (env : Option String) (gh : HelperResult)
    (authStatus : Nat) (authText : String) (oracle oracle2 : Nat → Attempt)
    (issues : List Issue) :
    (get_github_token env gh = none →
      runDirect env gh authStatus authText oracle oracle2 issues
        = { exitCode := 1, events := [], logs := remediationLines })
    ∧ (pyTruthy env = false →
      runScript1 env oracle issues = Script1Result.tokenMissing 1 [] script1GuardLogs) := by
  constructor
  · intro h
    have hfalse : pyTruthy (get_github_token env gh) = false := by rw [h]; rfl
    simp [runDirect, hfalse]
  · intro h
    simp [runScript1, h]

/-- C9: `get_github_token` resolves in order: a non-empty GITHUB_TOKEN
environment value is returned as is (the helper plays no part); with the
variable unset or empty, a helper exiting 0 yields its stripped stdout;
an absent helper executable (FileNotFoundError) or an expired timeout
(TimeoutExpired) is swallowed — the function returns None rather than
raising — as does a nonzero helper exit code. -/
theorem token_resolution_order (env : Option String) (gh : HelperResult) :
    (∀ t, env = some t → t ≠ "" → get_github_token env gh = some t)
    ∧ (pyTruthy env = false → ∀ out,
        gh = HelperResult.exited 0 out → get_github_token env gh = some (pyStrip out))
    ∧ (pyTruthy env = false →
        gh = HelperResult.fileNotFound → get_github_token env gh = none)
    ∧ (pyTruthy env = false →
        gh = HelperResult.timedOut → get_github_token env gh = none)
    ∧ (pyTruthy env = false → ∀ rc out,
        gh = HelperResult.exited rc out → rc ≠ 0 → get_github_token env gh = none) := by
  refine ⟨?_, ?_, ?_, ?_, ?_⟩
  · intro t ht hne
    subst ht
    have hemp : t.isEmpty = false := by
      cases ht : t.isEmpty
      · rfl
      · exact absurd ((String.isEmpty_iff t).mp ht) hne
    have : pyTruthy (some t) = true := by simp [pyTruthy, hemp]
    simp [get_github_token, this]
  · intro h out hg
    subst hg
    simp [get_github_token, h]
  · intro h hg
    subst hg
    simp [get_github_token, h]
  · intro h hg
    subst hg
    simp [get_github_token, h]
  · intro h rc out hg hrc
    subst hg
    simp [get_github_token, h, hrc]

/-- C10: with GITHUB_TOKEN unset and the helper exiting 0 with
whitespace-only (or empty) stdout, the resolver returns the stripped
empty string, which the falsy-token guard treats exactly as no
credential: remediation printed, exit status 1, zero HTTP calls. -/
theorem whitespace_helper_token_unavailable (ws : String) (hws : pyStrip ws = "")
    (authStatus : Nat) (authText : String) (oracle oracle2 : Nat → Attempt)
    (issues : List Issue) :
    get_github_token none (HelperResult.exited 0 ws) = some ""
    ∧ runDirect none (HelperResult.exited 0 ws) authStatus authText oracle oracle2 issues
        = { exitCode := 1, events := [], logs := remediationLines } := by
  have htok : get_github_token none (HelperResult.exited 0 ws) = some "" := by
    simp [get_github_token, pyTruthy, hws]
  have hfalse : pyTruthy (get_github_token none (HelperResult.exited 0 ws)) = false := by
    rw [htok]; rfl
  exact ⟨htok, by simp [runDirect, hfalse]⟩

/-- C10 witness: the helper printing two spaces and a newline. -/
theorem whitespace_helper_token_unavailable_witness :
    pyStrip "  \n" = ""
    ∧ (get_github_token none (HelperResult.exited 0 "  \n") = some ""
       ∧ runDirect none (HelperResult.exited 0 "  \n") 200 "" sampleOracle sampleOracle
           [sampleIssue]
         = { exitCode := 1, events := [], logs := remediationLines }) :=
  ⟨by decide,
   whitespace_helper_token_unavailable "  \n" (by decide) 200 "" sampleOracle sampleOracle
     [sampleIssue]⟩

/-- C1: with GITHUB_TOKEN unset, a helper token resolving and the
authentication pre-check passing (status 200), the run still stops with
exit status 1 after the single auth GET and before any submission: the
`exec` of create_issues.py re-runs its module guard, which re-reads the
unset environment variable and exits — the helper fallback never reaches
submission, contradicting the claimed end-to-end control flow. -/
theorem exec_reimport_defeats_helper_fallback :
    get_github_token none (HelperResult.exited 0 "ghp_sampletoken\n") = some "ghp_sampletoken"
    ∧ (runDirect none (HelperResult.exited 0 "ghp_sampletoken\n") 200 "" sampleOracle
        sampleOracle [sampleIssue]).exitCode = 1
    ∧ (runDirect none (HelperResult.exited 0 "ghp_sampletoken\n") 200 "" sampleOracle
        sampleOracle [sampleIssue]).events = [Event.getRepo]
    ∧ (runDirect none (HelperResult.exited 0 "ghp_sampletoken\n") 200 "" sampleOracle
        sampleOracle [sampleIssue]).logs
        = ["Testing GitHub authentication...", "✓ Authentication successful!", ""]
          ++ script1GuardLogs := by
  refine ⟨by decide, by decide, by decide, by decide⟩

/-- C8 counterexample: a 204 response to the auth pre-check is a success
(2xx) status, yet the run terminates with exit status 1 and zero
submissions — the code proceeds only on exactly 200. -/
theorem auth_check_noneq200_counterexample :
    (runDirect (some "sometoken") HelperResult.fileNotFound 204 "No Content" sampleOracle
        sampleOracle [sampleIssue]).exitCode = 1
    ∧ (runDirect (some "sometoken") HelperResult.fileNotFound 204 "No Content" sampleOracle
        sampleOracle [sampleIssue]).events = [Event.getRepo]
    ∧ (runDirect (some "sometoken") HelperResult.fileNotFound 204 "No Content" sampleOracle
        sampleOracle [sampleIssue]).logs
        = ["Testing GitHub authentication...",
           "✗ Authentication failed: 204",
           "Response: No Content"] := by
  refine ⟨by decide, by decide, by decide⟩

/-- C8 amended: one read-only GET precedes any submission; any status
other than exactly 200 terminates the run at once with exit status 1,
the status code and raw body printed, no retry and zero submissions; on
exactly 200 the run proceeds, and reaches the submissions whenever the
environment variable itself supplied the credential and the catalog is
non-empty. -/
theorem auth_check_exact_200_gate (env : Option String) (gh : HelperResult)
    (authStatus : Nat) (authText : String) (oracle oracle2 : Nat → Attempt)
    (issues : List Issue)
    (htok : pyTruthy (get_github_token env gh) = true) :
    (authStatus ≠ 200 →
      runDirect env gh authStatus authText oracle oracle2 issues
        = { exitCode := 1, events := [Event.getRepo],
            logs := ["Testing GitHub authentication...",
                     "✗ Authentication failed: " ++ toString authStatus,
                     "Response: " ++ authText] })
    ∧ (authStatus = 200 → pyTruthy env = true → 1 ≤ issues.length →
        Event.post 1 ∈ (runDirect env gh authStatus authText oracle oracle2 issues).events) := by
  constructor
  · intro hne
    simp [runDirect, htok, hne]
  · intro h200 henv hlen
    subst h200
    have hpost : Event.post 1 ∈ (runMain oracle issues).events := by
      have hmem : (1 : Nat) ∈ (runMain oracle issues).events.filterMap postIdx := by
        rw [show (runMain oracle issues).events.filterMap postIdx
              = List.range' 1 issues.length
            from mainLoop_posts oracle issues.length issues 1]
        exact List.mem_range'_1.mpr ⟨le_refl 1, by omega⟩
      rcases List.mem_filterMap.mp hmem with ⟨ev, hev, hpe⟩
      cases ev with
      | post i =>
          have : i = 1 := by simpa [postIdx] using hpe
          subst this
          exact hev
      | getRepo => simp [postIdx] at hpe
      | sleep s => simp [postIdx] at hpe
    by_cases hfail : 0 < (runMain oracle issues).summary.failed
    · simp [runDirect, htok, henv, hfail, hpost]
    · simp [runDirect, htok, henv, hfail, hpost]

/-- C8 witness: a run reaching the auth check with a rejected (404)
credential. -/
theorem auth_check_exact_200_gate_witness :
    pyTruthy (get_github_token (some "sometoken2") HelperResult.fileNotFound) = true
    ∧ (((404 : Nat) ≠ 200 →
        runDirect (some "sometoken2") HelperResult.fileNotFound 404 "Bad credentials"
            sampleOracle sampleOracle [sampleIssue]
          = { exitCode := 1, events := [Event.getRepo],
              logs := ["Testing GitHub authentication...",
                       "✗ Authentication failed: " ++ toString (404 : Nat),
                       "Response: " ++ "Bad credentials"] })
      ∧ ((404 : Nat) = 200 → pyTruthy (some "sometoken2") = true
          → 1 ≤ ([sampleIssue] : List Issue).length →
          Event.post 1 ∈ (runDirect (some "sometoken2") HelperResult.fileNotFound 404
              "Bad credentials" sampleOracle sampleOracle [sampleIssue]).events)) :=
  ⟨by decide,
   auth_check_exact_200_gate (some "sometoken2") HelperResult.fileNotFound 404
     "Bad credentials" sampleOracle sampleOracle [sampleIssue] (by decide)⟩

end ExtractoR
